import Mathlib

/-!
Shallow embedding of the atomix go-client session coordination layer and its
log primitive adapter (pkg/client/log/log.go, pkg/client/log/session.go,
pkg/client/database/options.go).

Conventions of the embedding:
* Go byte slices are `List Nat`; `time.Time` / `time.Duration` values are `Int`
  (nanoseconds); proto `int64` fields are `Int`; Go `uint64` values are `Nat`.
* A Go conversion from `int64` to `uint64` (such as `Index(response.Index)`)
  reinterprets the two's-complement bits, i.e. reduces modulo 2^64; this is
  `toUint64` below.
* A Go function returning `(T, error)` where exactly one of the two is set is
  embedded as `Except String (Option T)`: `(nil, err)` becomes `.error err`,
  `(e, nil)` becomes `.ok (some e)`, `(nil, nil)` becomes `.ok none`.
* The response-interpretation half of each adapter method (the code that runs
  after `session.DoCommand` / `session.DoQuery` returned successfully) is a
  pure function of the typed response and is embedded directly.
* Events written to a Go channel, and the closing of that channel, are
  embedded as a trace (`List ChanAction`) produced by the relay goroutine.
-/

/-- Two's-complement reinterpretation of a Go `int64` as `uint64`,
as performed by conversions such as `Index(response.Index)`. -/
def toUint64 (x : Int) : Nat := (x % (2 : Int) ^ 64).toNat

/-- Go byte slice. -/
abbrev Bytes := List Nat

/-- Proto enum `api.ResponseStatus`. The Go code compares it with `==` against
the three named values; every other numeric value falls into `OTHER`. -/
inductive ResponseStatus where
  | OK
  | PRECONDITION_FAILED
  | WRITE_LOCK
  | OTHER (n : Int)
deriving DecidableEq, Repr

/-- The part of `headers.ResponseHeader` the log adapter reads: `Header.Index`. -/
structure ResponseHeader where
  index : Nat
deriving DecidableEq, Repr

/-- `log.Entry` (log.go lines 96-110): Index, Version are `uint64` newtypes,
Value a byte slice, Timestamp a `time.Time` (0 when the Go literal omits it). -/
structure Entry where
  index : Nat
  version : Nat
  value : Bytes
  timestamp : Int
deriving DecidableEq, Repr

/-- Fields of `api.AppendResponse` read by `log.Append`. -/
structure AppendResponse where
  header : ResponseHeader
  status : ResponseStatus
  index : Int
  previousVersion : Int
  timestamp : Int
deriving DecidableEq, Repr

/-- Response interpretation of `log.Append` (log.go lines 188-206). The OK
branch builds the entry from `response.Index`, the appended value and
`response.Header.Index` (no timestamp); the fallback branch (status neither
OK, PRECONDITION_FAILED nor WRITE_LOCK) builds it from `response.Index`, the
value, `response.PreviousVersion` and `response.Timestamp`. -/
def handleAppend (value : Bytes) (r : AppendResponse) : Except String (Option Entry) :=
  if r.status = ResponseStatus.OK then
    Except.ok (some { index := toUint64 r.index, version := r.header.index,
                      value := value, timestamp := 0 })
  else if r.status = ResponseStatus.PRECONDITION_FAILED then
    Except.error "write condition failed"
  else if r.status = ResponseStatus.WRITE_LOCK then
    Except.error "write lock failed"
  else
    Except.ok (some { index := toUint64 r.index, version := toUint64 r.previousVersion,
                      value := value, timestamp := r.timestamp })

/-- Fields of `api.RemoveResponse` read by `log.Remove`. -/
structure RemoveResponse where
  header : ResponseHeader
  status : ResponseStatus
  index : Int
  previousValue : Bytes
  previousVersion : Int
deriving DecidableEq, Repr

/-- Response interpretation of `log.Remove` (log.go lines 550-564). The
fallback branch returns `nil, nil`: a bare success with no payload. -/
def handleRemove (r : RemoveResponse) : Except String (Option Entry) :=
  if r.status = ResponseStatus.OK then
    Except.ok (some { index := toUint64 r.index, version := toUint64 r.previousVersion,
                      value := r.previousValue, timestamp := 0 })
  else if r.status = ResponseStatus.PRECONDITION_FAILED then
    Except.error "write condition failed"
  else if r.status = ResponseStatus.WRITE_LOCK then
    Except.error "write lock failed"
  else
    Except.ok none

/-- Entry type used by `indexedMap.Replace` (it carries a Key field). -/
structure IMEntry where
  index : Nat
  key : String
  version : Nat
  value : Bytes
deriving DecidableEq, Repr

/-- Fields of `api.ReplaceResponse` read by `indexedMap.Replace`. -/
structure ReplaceResponse where
  header : ResponseHeader
  status : ResponseStatus
  index : Int
deriving DecidableEq, Repr

/-- Response interpretation of `indexedMap.Replace` (log.go lines 510-525).
The fallback branch returns `nil, nil`: a bare success with no payload. -/
def handleReplace (key : String) (value : Bytes) (r : ReplaceResponse) :
    Except String (Option IMEntry) :=
  if r.status = ResponseStatus.OK then
    Except.ok (some { index := toUint64 r.index, key := key,
                      version := r.header.index, value := value })
  else if r.status = ResponseStatus.PRECONDITION_FAILED then
    Except.error "write condition failed"
  else if r.status = ResponseStatus.WRITE_LOCK then
    Except.error "write lock failed"
  else
    Except.ok none

/-- Fields of `api.GetResponse` read by `log.Get` / `log.GetIndex`. -/
structure GetResponse where
  header : ResponseHeader
  index : Int
  value : Bytes
  version : Int
  timestamp : Int
deriving DecidableEq, Repr

/-- Response interpretation of `log.Get` (log.go lines 232-241). -/
def handleGet (r : GetResponse) : Except String (Option Entry) :=
  if r.version ≠ 0 then
    Except.ok (some { index := toUint64 r.index, version := toUint64 r.version,
                      value := r.value, timestamp := r.timestamp })
  else
    Except.ok none

/-- Response interpretation of `log.GetIndex` (log.go lines 267-276),
identical in shape to `log.Get`. -/
def handleGetIndex (r : GetResponse) : Except String (Option Entry) :=
  if r.version ≠ 0 then
    Except.ok (some { index := toUint64 r.index, version := toUint64 r.version,
                      value := r.value, timestamp := r.timestamp })
  else
    Except.ok none

/-- Fields of `api.FirstEntryResponse`. -/
structure FirstEntryResponse where
  header : ResponseHeader
  index : Int
  value : Bytes
  version : Int
  timestamp : Int
deriving DecidableEq, Repr

/-- Fields of `api.LastEntryResponse`. -/
structure LastEntryResponse where
  header : ResponseHeader
  index : Int
  value : Bytes
  version : Int
  timestamp : Int
deriving DecidableEq, Repr

/-- Fields of `api.PrevEntryResponse`. -/
structure PrevEntryResponse where
  header : ResponseHeader
  index : Int
  value : Bytes
  version : Int
deriving DecidableEq, Repr

/-- Fields of `api.NextEntryResponse`. -/
structure NextEntryResponse where
  header : ResponseHeader
  index : Int
  value : Bytes
  version : Int
  timestamp : Int
deriving DecidableEq, Repr

/-- Response interpretation of `log.FirstIndex` (log.go lines 295-299):
returns the index when Version is non-zero, otherwise `0, nil`. -/
def handleFirstIndex (r : FirstEntryResponse) : Except String Nat :=
  if r.version ≠ 0 then Except.ok (toUint64 r.index) else Except.ok 0

/-- Response interpretation of `log.LastIndex` (log.go lines 318-322). -/
def handleLastIndex (r : LastEntryResponse) : Except String Nat :=
  if r.version ≠ 0 then Except.ok (toUint64 r.index) else Except.ok 0

/-- Response interpretation of `log.FirstEntry` (log.go lines 389-398); the
final `return nil, err` runs with `err = nil`, so it is `.ok none`. -/
def handleFirstEntry (r : FirstEntryResponse) : Except String (Option Entry) :=
  if r.version ≠ 0 then
    Except.ok (some { index := toUint64 r.index, version := toUint64 r.version,
                      value := r.value, timestamp := r.timestamp })
  else
    Except.ok none

/-- Response interpretation of `log.LastEntry` (log.go lines 417-426). -/
def handleLastEntry (r : LastEntryResponse) : Except String (Option Entry) :=
  if r.version ≠ 0 then
    Except.ok (some { index := toUint64 r.index, version := toUint64 r.version,
                      value := r.value, timestamp := r.timestamp })
  else
    Except.ok none

/-- Response interpretation of `log.PrevEntry` (log.go lines 446-454); the
Go literal omits Timestamp, so it stays at its zero value. -/
def handlePrevEntry (r : PrevEntryResponse) : Except String (Option Entry) :=
  if r.version ≠ 0 then
    Except.ok (some { index := toUint64 r.index, version := toUint64 r.version,
                      value := r.value, timestamp := 0 })
  else
    Except.ok none

/-- Response interpretation of `log.NextEntry` (log.go lines 474-483). -/
def handleNextEntry (r : NextEntryResponse) : Except String (Option Entry) :=
  if r.version ≠ 0 then
    Except.ok (some { index := toUint64 r.index, version := toUint64 r.version,
                      value := r.value, timestamp := r.timestamp })
  else
    Except.ok none

/-- Proto enum `api.EventResponse.Type`. `UNRECOGNIZED` models any numeric
value other than the three named ones (a proto enum is an open `int32`). -/
inductive EventResponseType where
  | NONE
  | APPENDED
  | REMOVED
  | UNRECOGNIZED (n : Int)
deriving DecidableEq, Repr

/-- `log.EventType` (log.go lines 117-128): a string type with three named
constants; `EventNone` is the zero value `""`. -/
inductive EventType where
  | EventNone
  | EventAppended
  | EventRemoved
deriving DecidableEq, Repr

/-- `log.Event` (log.go lines 131-137). The relay always allocates the entry,
so the Go `*Entry` is never nil here and is embedded as a plain `Entry`. -/
structure Event where
  type : EventType
  entry : Entry
deriving DecidableEq, Repr

/-- Fields of `api.EventResponse` read by the watch relay. -/
structure EventResponse where
  header : ResponseHeader
  type : EventResponseType
  index : Int
  value : Bytes
  version : Int
  timestamp : Int
deriving DecidableEq, Repr

/-- The `switch response.Type` in `log.Watch` (log.go lines 629-637): `var t
EventType` starts at the zero value `EventNone`; the switch has no default
case, so an unrecognized type leaves `t` at `EventNone`. -/
def eventTypeOf : EventResponseType → EventType
  | EventResponseType.NONE => EventType.EventNone
  | EventResponseType.APPENDED => EventType.EventAppended
  | EventResponseType.REMOVED => EventType.EventRemoved
  | EventResponseType.UNRECOGNIZED _ => EventType.EventNone

/-- The event sent on the watch channel for one received stream message
(log.go lines 638-646). -/
def toEvent (r : EventResponse) : Event :=
  { type := eventTypeOf r.type,
    entry := { index := toUint64 r.index, version := toUint64 r.version,
               value := r.value, timestamp := r.timestamp } }

/-- One action of the relay goroutine on the consumer channel `ch`:
a send (`ch <- event`) or the deferred `close(ch)`. -/
inductive ChanAction where
  | send (e : Event)
  | closeCh
deriving DecidableEq, Repr

/-- Trace of the relay goroutine of `log.Watch` (log.go lines 623-648) on the
consumer channel, as a function of the sequence of messages received from the
underlying stream before it terminated: `for event := range stream` sends one
converted event per message, and the deferred `close(ch)` runs when the
stream is exhausted. -/
def watchRelay : List EventResponse → List ChanAction
  | [] => [ChanAction.closeCh]
  | r :: rest => ChanAction.send (toEvent r) :: watchRelay rest

/-- The events a trace delivers on the channel, in order. -/
def sentEvents : List ChanAction → List Event
  | [] => []
  | ChanAction.send e :: rest => e :: sentEvents rest
  | ChanAction.closeCh :: rest => sentEvents rest

/-- How many times a trace closes the channel. -/
def closeCount : List ChanAction → Nat
  | [] => 0
  | ChanAction.send _ :: rest => closeCount rest
  | ChanAction.closeCh :: rest => closeCount rest + 1

/-- `databaseOptions` (options.go lines 33-36): scope string and session
timeout (`time.Duration`, nanoseconds). -/
structure DatabaseOptions where
  scope : String
  sessionTimeout : Int
deriving DecidableEq, Repr

/-- The two option implementations of options.go: `scopeOption` (from
`WithScope`) and `sessionTimeoutOption` (from `WithSessionTimeout`). -/
inductive DbOption where
  | scopeOption (scope : String)
  | sessionTimeoutOption (timeout : Int)
deriving DecidableEq, Repr

/-- `opt.apply(options)` (options.go lines 52-54 and 67-69): each option
writes exactly its own field. -/
def applyOption (options : DatabaseOptions) : DbOption → DatabaseOptions
  | DbOption.scopeOption s => { options with scope := s }
  | DbOption.sessionTimeoutOption t => { options with sessionTimeout := t }

/-- `1 * time.Minute` in nanoseconds. -/
def minuteNs : Int := 60000000000

/-- `applyOptions` (options.go lines 22-31). The defaults are
`os.Getenv("ATOMIX_SCOPE")` — the ambient environment, made an explicit
parameter `envScope` of this pure embedding — and a session timeout of one
minute; then each option is applied in list order. -/
def applyOptions (envScope : String) (opts : List DbOption) : DatabaseOptions :=
  opts.foldl applyOption { scope := envScope, sessionTimeout := 1 * minuteNs }

/-- True for `sessionTimeoutOption`. -/
def DbOption.isTimeout : DbOption → Bool
  | DbOption.scopeOption _ => false
  | DbOption.sessionTimeoutOption _ => true

/-- True for `scopeOption`. -/
def DbOption.isScope : DbOption → Bool
  | DbOption.scopeOption _ => true
  | DbOption.sessionTimeoutOption _ => false

/-- The part of `headers.RequestHeader` the session handlers see: they embed
it opaquely into the request, so it is abstracted to a single token. -/
structure RequestHeader where
  raw : Nat
deriving DecidableEq, Repr

/-- `api.CloseRequest`: header plus the `Delete` flag, whose Go zero value is
`false` when the literal omits it. -/
structure CloseRequest where
  header : RequestHeader
  delete : Bool
deriving DecidableEq, Repr

/-- Which session primitive a handler invokes (`s.DoCreate`, `s.DoKeepAlive`
or `s.DoClose`). -/
inductive SessionCallKind where
  | DoCreate
  | DoKeepAlive
  | DoClose
deriving DecidableEq, Repr

/-- `sessionHandler.Close` (session.go lines 57-69): calls `s.DoClose` with a
`CloseRequest` holding only the header (Delete left at `false`), sent via the
service's `Close` rpc. The triple is (session call, rpc name, request). -/
def sessionHandlerClose (h : RequestHeader) : SessionCallKind × String × CloseRequest :=
  (SessionCallKind.DoClose, "Close", { header := h, delete := false })

/-- `sessionHandler.Delete` (session.go lines 71-84): calls `s.DoClose` with a
`CloseRequest` holding the header and `Delete: true`, sent via the service's
`Close` rpc. -/
def sessionHandlerDelete (h : RequestHeader) : SessionCallKind × String × CloseRequest :=
  (SessionCallKind.DoClose, "Close", { header := h, delete := true })

/-- Session lifecycle states of spec section 4.2. -/
inductive SessionState where
  | Unopened
  | Opening
  | Opened
  | Closing
  | Closed
  | Deleted
deriving DecidableEq, Repr

/-- Error conditions surfaced by the modelled session layer. -/
inductive SessionError where
  | SessionClosed
  | TransportFailure (msg : String)
deriving DecidableEq, Repr

/-- Modelled from the spec: the `session` package (`session.Session` with
`DoCommand`, `DoQuery`, `DoCommandStream`, `Close`) belongs to this module but
is not under src/. Per spec sections 4.2 and 7, a session carries its
lifecycle state; `transportCalls` counts the calls attempted against the
transport so that "no calls are attempted" is observable. -/
structure ModelSession where
  state : SessionState
  transportCalls : Nat
deriving DecidableEq, Repr

/-- Modelled from the spec: `Session.DoCommand`. Once the session is `Closed`
the call fails immediately with `SessionClosed` and the transport is not
invoked (the session, including its call counter, is returned unchanged and
the `transport` argument is never applied); otherwise one transport call is
attempted and its outcome returned. -/
def ModelSession.doCommand (s : ModelSession) (transport : Nat → Except String Nat) :
    ModelSession × Except SessionError Nat :=
  match s.state with
  | SessionState.Closed => (s, Except.error SessionError.SessionClosed)
  | _ =>
    match transport s.transportCalls with
    | Except.ok r =>
        ({ s with transportCalls := s.transportCalls + 1 }, Except.ok r)
    | Except.error e =>
        ({ s with transportCalls := s.transportCalls + 1 },
         Except.error (SessionError.TransportFailure e))

/-- Modelled from the spec: `Session.DoQuery`; same closed-session guard as
`doCommand`. -/
def ModelSession.doQuery (s : ModelSession) (transport : Nat → Except String Nat) :
    ModelSession × Except SessionError Nat :=
  match s.state with
  | SessionState.Closed => (s, Except.error SessionError.SessionClosed)
  | _ =>
    match transport s.transportCalls with
    | Except.ok r =>
        ({ s with transportCalls := s.transportCalls + 1 }, Except.ok r)
    | Except.error e =>
        ({ s with transportCalls := s.transportCalls + 1 },
         Except.error (SessionError.TransportFailure e))

/-- Modelled from the spec: `Session.DoCommandStream` (used by `Watch`);
returns the delivery stream, with the same closed-session guard. -/
def ModelSession.doCommandStream (s : ModelSession)
    (transport : Nat → Except String (List Nat)) :
    ModelSession × Except SessionError (List Nat) :=
  match s.state with
  | SessionState.Closed => (s, Except.error SessionError.SessionClosed)
  | _ =>
    match transport s.transportCalls with
    | Except.ok r =>
        ({ s with transportCalls := s.transportCalls + 1 }, Except.ok r)
    | Except.error e =>
        ({ s with transportCalls := s.transportCalls + 1 },
         Except.error (SessionError.TransportFailure e))

/-- Modelled from the spec: `Session.Close` (spec section 4.2): from any
non-closed state it issues one close call against the transport and, whether
that call succeeds or fails, transitions to `Closed`. -/
def ModelSession.close (s : ModelSession) : ModelSession × Except SessionError Unit :=
  match s.state with
  | SessionState.Closed => (s, Except.error SessionError.SessionClosed)
  | _ => ({ state := SessionState.Closed, transportCalls := s.transportCalls + 1 },
          Except.ok ())

/-- Modelled from the spec: the hash used by `util.GetPartitionIndex` (not
under src/). Spec section 4.1 requires only a pure hash of the name to a
non-negative integer; a polynomial string hash over 32 bits stands in. -/
def hashName (name : String) : Nat :=
  name.data.foldl (fun h c => (h * 31 + c.toNat) % 4294967296) 0

/-- Modelled from the spec: `util.GetPartitionIndex` (spec section 4.1):
`selectPartition(name, partitionCount) -> index in [0, partitionCount)` by
hashing the name and reducing modulo the count; fails with `InvalidArgument`
when `partitionCount <= 0`. -/
def GetPartitionIndex (name : String) (partitionCount : Int) : Except String Nat :=
  if partitionCount ≤ 0 then Except.error "InvalidArgument"
  else Except.ok (hashName name % partitionCount.toNat)

/-- A partition handle (`primitive.Partition`), abstracted to its ordinal. -/
structure Partition where
  id : Nat
deriving DecidableEq, Repr

/-- `log.New` (log.go lines 140-146) over the modelled partition router:
selects the partition by `GetPartitionIndex(name, len(partitions))` and only
then creates a session on it (`newLog` calls `session.New`). The second
component counts sessions created, so that "no session is created" on the
error path is observable. -/
def NewLog (name : String) (partitions : List Partition) :
    Except String Partition × Nat :=
  match GetPartitionIndex name (partitions.length : Int) with
  | Except.error e => (Except.error e, 0)
  | Except.ok i =>
    match partitions[i]? with
    | some p => (Except.ok p, 1)
    | none => (Except.error "index out of range", 0)

/-- Sample append response with a given status, for concrete evaluation. -/
def appendRespWith (st : ResponseStatus) : AppendResponse :=
  { header := { index := 9 }, status := st, index := 4, previousVersion := 3, timestamp := 5 }

/-- Sample remove response with a given status. -/
def removeRespWith (st : ResponseStatus) : RemoveResponse :=
  { header := { index := 9 }, status := st, index := 4, previousValue := [2], previousVersion := 3 }

/-- Sample replace response with a given status. -/
def replaceRespWith (st : ResponseStatus) : ReplaceResponse :=
  { header := { index := 9 }, status := st, index := 4 }

/-- Sample get response with a given version. -/
def getRespWith (v : Int) : GetResponse :=
  { header := { index := 9 }, index := 4, value := [2], version := v, timestamp := 5 }

/-- Sample first-entry response with a given version. -/
def firstRespWith (v : Int) : FirstEntryResponse :=
  { header := { index := 9 }, index := 4, value := [2], version := v, timestamp := 5 }

/-- Sample last-entry response with a given version. -/
def lastRespWith (v : Int) : LastEntryResponse :=
  { header := { index := 9 }, index := 4, value := [2], version := v, timestamp := 5 }

/-- Sample prev-entry response with a given version. -/
def prevRespWith (v : Int) : PrevEntryResponse :=
  { header := { index := 9 }, index := 4, value := [2], version := v }

/-- Sample next-entry response with a given version. -/
def nextRespWith (v : Int) : NextEntryResponse :=
  { header := { index := 9 }, index := 4, value := [2], version := v, timestamp := 5 }

/-- Sample event response with a given event type. -/
def eventRespWith (t : EventResponseType) : EventResponse :=
  { header := { index := 9 }, type := t, index := 4, value := [2], version := 3,
    timestamp := 5 }

/-- True when a result is a success, i.e. the Go call returned `err == nil`. -/
def exceptOk {ε α : Type} : Except ε α → Bool
  | Except.ok _ => true
  | Except.error _ => false

/-- Every delivery in a relay trace is a received message's converted event,
in receipt order. -/
theorem sentEvents_watchRelay (events : List EventResponse) :
    sentEvents (watchRelay events) = events.map toEvent := by
  induction events with
  | nil => rfl
  | cons r rest ih => simp [watchRelay, sentEvents, ih]

/-- A relay trace closes the channel exactly once. -/
theorem closeCount_watchRelay (events : List EventResponse) :
    closeCount (watchRelay events) = 1 := by
  induction events with
  | nil => rfl
  | cons r rest ih => simp [watchRelay, closeCount, ih]

/-- Structural form of a relay trace: all sends, in order, then the single
channel close. -/
theorem watchRelay_eq_sends_then_close (events : List EventResponse) :
    watchRelay events
      = events.map (fun r => ChanAction.send (toEvent r)) ++ [ChanAction.closeCh] := by
  induction events with
  | nil => rfl
  | cons r rest ih => simp [watchRelay, ih]

/-- C5: for every watch and every sequence of events received from the
underlying stream, the relay goroutine delivers exactly the converted events
in receipt order (none dropped or duplicated), and closes the consumer
channel exactly once, as the last action of the trace — i.e. only after every
received event has been delivered and the stream has terminated. -/
theorem watch_relay_ordered_delivery_single_close (events : List EventResponse) :
    sentEvents (watchRelay events) = events.map toEvent
    ∧ closeCount (watchRelay events) = 1
    ∧ watchRelay events
        = events.map (fun r => ChanAction.send (toEvent r)) ++ [ChanAction.closeCh] :=
  ⟨sentEvents_watchRelay events, closeCount_watchRelay events,
   watchRelay_eq_sends_then_close events⟩

/-- C10: the relay forwards every received message as an event (one send per
message, order preserved, nothing filtered out), mapping NONE and any
unrecognized type to `EventNone`, APPENDED to `EventAppended`, REMOVED to
`EventRemoved`, and copying Index, Value, Version and Timestamp from the
response into the event's entry. -/
theorem watch_forwards_every_message (events : List EventResponse)
    (r : EventResponse) (n : Int) :
    (sentEvents (watchRelay events)).length = events.length
    ∧ sentEvents (watchRelay events) = events.map toEvent
    ∧ (toEvent r).type = eventTypeOf r.type
    ∧ eventTypeOf EventResponseType.NONE = EventType.EventNone
    ∧ eventTypeOf EventResponseType.APPENDED = EventType.EventAppended
    ∧ eventTypeOf EventResponseType.REMOVED = EventType.EventRemoved
    ∧ eventTypeOf (EventResponseType.UNRECOGNIZED n) = EventType.EventNone
    ∧ (toEvent r).entry.index = toUint64 r.index
    ∧ (toEvent r).entry.value = r.value
    ∧ (toEvent r).entry.version = toUint64 r.version
    ∧ (toEvent r).entry.timestamp = r.timestamp := by
  refine ⟨?_, sentEvents_watchRelay events, rfl, rfl, rfl, rfl, rfl, rfl, rfl, rfl, rfl⟩
  rw [sentEvents_watchRelay]
  simp

/-- C3: in the command fallback branch (response status neither OK nor
PRECONDITION_FAILED nor WRITE_LOCK), `Append` returns a non-nil entry built
from the response Index, the appended value, PreviousVersion and Timestamp,
with a nil error, while `Remove` and `Replace` return a nil entry with a nil
error (a bare success with no payload). -/
theorem command_fallback_branch
    (value : Bytes) (key : String)
    (a : AppendResponse) (rm : RemoveResponse) (rp : ReplaceResponse)
    (ha1 : a.status ≠ ResponseStatus.OK)
    (ha2 : a.status ≠ ResponseStatus.PRECONDITION_FAILED)
    (ha3 : a.status ≠ ResponseStatus.WRITE_LOCK)
    (hm1 : rm.status ≠ ResponseStatus.OK)
    (hm2 : rm.status ≠ ResponseStatus.PRECONDITION_FAILED)
    (hm3 : rm.status ≠ ResponseStatus.WRITE_LOCK)
    (hp1 : rp.status ≠ ResponseStatus.OK)
    (hp2 : rp.status ≠ ResponseStatus.PRECONDITION_FAILED)
    (hp3 : rp.status ≠ ResponseStatus.WRITE_LOCK) :
    handleAppend value a
      = Except.ok (some { index := toUint64 a.index,
                          version := toUint64 a.previousVersion,
                          value := value, timestamp := a.timestamp })
    ∧ handleRemove rm = Except.ok none
    ∧ handleReplace key value rp = Except.ok none := by
  refine ⟨?_, ?_, ?_⟩ <;>
    simp [handleAppend, handleRemove, handleReplace,
          ha1, ha2, ha3, hm1, hm2, hm3, hp1, hp2, hp3]

/-- Witness for the fallback-branch theorem at a concrete unrecognized
status. -/
theorem command_fallback_branch_witness :
    handleAppend [1] (appendRespWith (ResponseStatus.OTHER 7))
      = Except.ok (some { index := toUint64 (appendRespWith (ResponseStatus.OTHER 7)).index,
                          version := toUint64 (appendRespWith (ResponseStatus.OTHER 7)).previousVersion,
                          value := [1],
                          timestamp := (appendRespWith (ResponseStatus.OTHER 7)).timestamp })
    ∧ handleRemove (removeRespWith (ResponseStatus.OTHER 7)) = Except.ok none
    ∧ handleReplace "k" [1] (replaceRespWith (ResponseStatus.OTHER 7)) = Except.ok none :=
  command_fallback_branch [1] "k"
    (appendRespWith (ResponseStatus.OTHER 7))
    (removeRespWith (ResponseStatus.OTHER 7))
    (replaceRespWith (ResponseStatus.OTHER 7))
    (by decide) (by decide) (by decide) (by decide) (by decide) (by decide)
    (by decide) (by decide) (by decide)

/-- C4: a PRECONDITION_FAILED response makes `Append`, `Remove` and `Replace`
return a nil entry and the error "write condition failed"; a WRITE_LOCK
response makes them return a nil entry and the error "write lock failed".
The status is interpreted after `DoCommand` has returned, so the rejection is
handed straight back to the caller and no retry happens in the adapter. -/
theorem command_rejection_surfaced
    (value : Bytes) (key : String)
    (a a2 : AppendResponse) (rm rm2 : RemoveResponse) (rp rp2 : ReplaceResponse)
    (ha : a.status = ResponseStatus.PRECONDITION_FAILED)
    (ha2 : a2.status = ResponseStatus.WRITE_LOCK)
    (hm : rm.status = ResponseStatus.PRECONDITION_FAILED)
    (hm2 : rm2.status = ResponseStatus.WRITE_LOCK)
    (hp : rp.status = ResponseStatus.PRECONDITION_FAILED)
    (hp2 : rp2.status = ResponseStatus.WRITE_LOCK) :
    handleAppend value a = Except.error "write condition failed"
    ∧ handleAppend value a2 = Except.error "write lock failed"
    ∧ handleRemove rm = Except.error "write condition failed"
    ∧ handleRemove rm2 = Except.error "write lock failed"
    ∧ handleReplace key value rp = Except.error "write condition failed"
    ∧ handleReplace key value rp2 = Except.error "write lock failed" := by
  refine ⟨?_, ?_, ?_, ?_, ?_, ?_⟩ <;>
    simp [handleAppend, handleRemove, handleReplace, ha, ha2, hm, hm2, hp, hp2]

/-- Witness for the rejection theorem at concrete PRECONDITION_FAILED and
WRITE_LOCK responses. -/
theorem command_rejection_surfaced_witness :
    handleAppend [1] (appendRespWith ResponseStatus.PRECONDITION_FAILED)
      = Except.error "write condition failed"
    ∧ handleAppend [1] (appendRespWith ResponseStatus.WRITE_LOCK)
      = Except.error "write lock failed"
    ∧ handleRemove (removeRespWith ResponseStatus.PRECONDITION_FAILED)
      = Except.error "write condition failed"
    ∧ handleRemove (removeRespWith ResponseStatus.WRITE_LOCK)
      = Except.error "write lock failed"
    ∧ handleReplace "k" [1] (replaceRespWith ResponseStatus.PRECONDITION_FAILED)
      = Except.error "write condition failed"
    ∧ handleReplace "k" [1] (replaceRespWith ResponseStatus.WRITE_LOCK)
      = Except.error "write lock failed" :=
  command_rejection_surfaced [1] "k"
    (appendRespWith ResponseStatus.PRECONDITION_FAILED)
    (appendRespWith ResponseStatus.WRITE_LOCK)
    (removeRespWith ResponseStatus.PRECONDITION_FAILED)
    (removeRespWith ResponseStatus.WRITE_LOCK)
    (replaceRespWith ResponseStatus.PRECONDITION_FAILED)
    (replaceRespWith ResponseStatus.WRITE_LOCK)
    rfl rfl rfl rfl rfl rfl

/-- C9: for every entry-reading query handler, a successful call whose
response carries Version 0 yields a nil entry (or zero index) with a nil
error — never an error — and a non-nil entry is returned exactly when the
response Version is non-zero. -/
theorem query_absence_signaling
    (g gi : GetResponse) (fi f : FirstEntryResponse) (li l : LastEntryResponse)
    (p : PrevEntryResponse) (x : NextEntryResponse) :
    (exceptOk (handleGet g) = true ∧ (handleGet g = Except.ok none ↔ g.version = 0))
    ∧ (exceptOk (handleGetIndex gi) = true
        ∧ (handleGetIndex gi = Except.ok none ↔ gi.version = 0))
    ∧ (exceptOk (handleFirstIndex fi) = true
        ∧ (fi.version = 0 → handleFirstIndex fi = Except.ok 0))
    ∧ (exceptOk (handleLastIndex li) = true
        ∧ (li.version = 0 → handleLastIndex li = Except.ok 0))
    ∧ (exceptOk (handleFirstEntry f) = true
        ∧ (handleFirstEntry f = Except.ok none ↔ f.version = 0))
    ∧ (exceptOk (handleLastEntry l) = true
        ∧ (handleLastEntry l = Except.ok none ↔ l.version = 0))
    ∧ (exceptOk (handlePrevEntry p) = true
        ∧ (handlePrevEntry p = Except.ok none ↔ p.version = 0))
    ∧ (exceptOk (handleNextEntry x) = true
        ∧ (handleNextEntry x = Except.ok none ↔ x.version = 0)) := by
  refine ⟨⟨?_, ?_⟩, ⟨?_, ?_⟩, ⟨?_, ?_⟩, ⟨?_, ?_⟩, ⟨?_, ?_⟩, ⟨?_, ?_⟩, ⟨?_, ?_⟩, ⟨?_, ?_⟩⟩
  · by_cases hv : g.version = 0 <;> simp [handleGet, hv, exceptOk]
  · by_cases hv : g.version = 0 <;> simp [handleGet, hv]
  · by_cases hv : gi.version = 0 <;> simp [handleGetIndex, hv, exceptOk]
  · by_cases hv : gi.version = 0 <;> simp [handleGetIndex, hv]
  · by_cases hv : fi.version = 0 <;> simp [handleFirstIndex, hv, exceptOk]
  · intro hv; simp [handleFirstIndex, hv]
  · by_cases hv : li.version = 0 <;> simp [handleLastIndex, hv, exceptOk]
  · intro hv; simp [handleLastIndex, hv]
  · by_cases hv : f.version = 0 <;> simp [handleFirstEntry, hv, exceptOk]
  · by_cases hv : f.version = 0 <;> simp [handleFirstEntry, hv]
  · by_cases hv : l.version = 0 <;> simp [handleLastEntry, hv, exceptOk]
  · by_cases hv : l.version = 0 <;> simp [handleLastEntry, hv]
  · by_cases hv : p.version = 0 <;> simp [handlePrevEntry, hv, exceptOk]
  · by_cases hv : p.version = 0 <;> simp [handlePrevEntry, hv]
  · by_cases hv : x.version = 0 <;> simp [handleNextEntry, hv, exceptOk]
  · by_cases hv : x.version = 0 <;> simp [handleNextEntry, hv]

/-- Witness for absence signaling: at Version 0 the index query returns the
zero index with no error, by the theorem applied at concrete responses. -/
theorem query_absence_signaling_witness :
    handleFirstIndex (firstRespWith 0) = Except.ok 0 :=
  (query_absence_signaling (getRespWith 0) (getRespWith 0) (firstRespWith 0)
      (firstRespWith 0) (lastRespWith 0) (lastRespWith 0) (prevRespWith 0)
      (nextRespWith 0)).2.2.1.2 (by decide)

/-- C8: `sessionHandler.Delete` issues the same session call (`DoClose`) and
the same `Close` rpc with the same header as `sessionHandler.Close`; the only
difference is that its request carries `Delete: true` while the close
handler's request leaves the flag at `false`. -/
theorem delete_handler_differs_only_in_delete_flag (h : RequestHeader) :
    (sessionHandlerDelete h).1 = (sessionHandlerClose h).1
    ∧ (sessionHandlerDelete h).2.1 = (sessionHandlerClose h).2.1
    ∧ (sessionHandlerDelete h).2.2.header = (sessionHandlerClose h).2.2.header
    ∧ (sessionHandlerClose h).2.2.delete = false
    ∧ (sessionHandlerDelete h).2.2.delete = true
    ∧ (sessionHandlerDelete h).2.2 = { (sessionHandlerClose h).2.2 with delete := true } :=
  ⟨rfl, rfl, rfl, rfl, rfl, rfl⟩

/-- C1: closing a session leaves it in the `Closed` state, and on a `Closed`
session every `doCommand`, `doQuery` and `doCommandStream` call fails with
`SessionClosed`, returning the session unchanged — in particular the
transport-call counter does not move, so no transport call is attempted. -/
theorem closed_session_rejects_without_transport
    (s0 s : ModelSession)
    (t tq : Nat → Except String Nat) (ts : Nat → Except String (List Nat))
    (h : s.state = SessionState.Closed) :
    ((ModelSession.close s0).1).state = SessionState.Closed
    ∧ s.doCommand t = (s, Except.error SessionError.SessionClosed)
    ∧ s.doQuery tq = (s, Except.error SessionError.SessionClosed)
    ∧ s.doCommandStream ts = (s, Except.error SessionError.SessionClosed)
    ∧ ((s.doCommand t).1).transportCalls = s.transportCalls := by
  obtain ⟨st0, tc0⟩ := s0
  obtain ⟨st, tc⟩ := s
  simp only [ModelSession.state] at h
  subst h
  refine ⟨?_, rfl, rfl, rfl, rfl⟩
  cases st0 <;> rfl

/-- Witness for the closed-session theorem at a concrete closed session and
concrete transports. -/
theorem closed_session_rejects_without_transport_witness :
    ((ModelSession.close { state := SessionState.Opened, transportCalls := 0 }).1).state
      = SessionState.Closed
    ∧ ModelSession.doCommand { state := SessionState.Closed, transportCalls := 3 }
        (fun _ => Except.ok 0)
      = ({ state := SessionState.Closed, transportCalls := 3 },
         Except.error SessionError.SessionClosed)
    ∧ ModelSession.doQuery { state := SessionState.Closed, transportCalls := 3 }
        (fun _ => Except.ok 0)
      = ({ state := SessionState.Closed, transportCalls := 3 },
         Except.error SessionError.SessionClosed)
    ∧ ModelSession.doCommandStream { state := SessionState.Closed, transportCalls := 3 }
        (fun _ => Except.ok [])
      = ({ state := SessionState.Closed, transportCalls := 3 },
         Except.error SessionError.SessionClosed)
    ∧ ((ModelSession.doCommand { state := SessionState.Closed, transportCalls := 3 }
        (fun _ => Except.ok 0)).1).transportCalls = 3 :=
  closed_session_rejects_without_transport
    { state := SessionState.Opened, transportCalls := 0 }
    { state := SessionState.Closed, transportCalls := 3 }
    (fun _ => Except.ok 0) (fun _ => Except.ok 0) (fun _ => Except.ok [])
    rfl

/-- C2: for a positive partition count the partition router returns an index
in `[0, N)`; the selection is a pure function of the name and the count (the
same inputs give the same result); a non-positive count fails with
`InvalidArgument`; and `New` over an empty partition list fails with
`InvalidArgument` without creating a session. -/
theorem partition_selection_deterministic_bounded
    (name : String) (n : Int) (hpos : 0 < n) :
    (∃ i, GetPartitionIndex name n = Except.ok i ∧ (i : Int) < n)
    ∧ GetPartitionIndex name n = GetPartitionIndex name n
    ∧ (∀ m : Int, m ≤ 0 → GetPartitionIndex name m = Except.error "InvalidArgument")
    ∧ (NewLog name []).1 = Except.error "InvalidArgument"
    ∧ (NewLog name []).2 = 0 := by
  refine ⟨⟨hashName name % n.toNat, ?_, ?_⟩, rfl, ?_, rfl, rfl⟩
  · unfold GetPartitionIndex
    rw [if_neg (not_le.mpr hpos)]
  · have hn : 0 < n.toNat := by omega
    have hlt := Nat.mod_lt (hashName name) hn
    omega
  · intro m hm
    unfold GetPartitionIndex
    rw [if_pos hm]

/-- Witness for the partition-router theorem at a concrete name and count. -/
theorem partition_selection_deterministic_bounded_witness :
    (∃ i, GetPartitionIndex "foo" 3 = Except.ok i ∧ (i : Int) < 3)
    ∧ GetPartitionIndex "foo" 3 = GetPartitionIndex "foo" 3
    ∧ (∀ m : Int, m ≤ 0 → GetPartitionIndex "foo" m = Except.error "InvalidArgument")
    ∧ (NewLog "foo" []).1 = Except.error "InvalidArgument"
    ∧ (NewLog "foo" []).2 = 0 :=
  partition_selection_deterministic_bounded "foo" 3 (by decide)

/-- Folding options that contain no timeout option leaves the session timeout
at its initial value. -/
theorem foldl_applyOption_timeout_const (opts : List DbOption) :
    ∀ init : DatabaseOptions, (∀ x ∈ opts, x.isTimeout = false) →
      (opts.foldl applyOption init).sessionTimeout = init.sessionTimeout := by
  induction opts with
  | nil => intro init _; rfl
  | cons x rest ih =>
    intro init h
    rw [List.foldl_cons]
    have hx := h x (List.mem_cons_self x rest)
    have hr : ∀ y ∈ rest, y.isTimeout = false := fun y hy => h y (List.mem_cons_of_mem x hy)
    rw [ih (applyOption init x) hr]
    cases x with
    | scopeOption s => rfl
    | sessionTimeoutOption t => simp [DbOption.isTimeout] at hx

/-- The session timeout after folding options depends only on the initial
session timeout, never on the initial scope. -/
theorem foldl_applyOption_timeout_congr (opts : List DbOption) :
    ∀ i1 i2 : DatabaseOptions, i1.sessionTimeout = i2.sessionTimeout →
      (opts.foldl applyOption i1).sessionTimeout
        = (opts.foldl applyOption i2).sessionTimeout := by
  induction opts with
  | nil => intro i1 i2 h; exact h
  | cons x rest ih =>
    intro i1 i2 h
    rw [List.foldl_cons, List.foldl_cons]
    apply ih
    cases x with
    | scopeOption s => exact h
    | sessionTimeoutOption t => rfl

/-- When the options contain a scope option, the fold result does not depend
on the initial scope at all (the last scope option overwrites it). -/
theorem foldl_applyOption_scope_overrides (opts : List DbOption) :
    ∀ i1 i2 : DatabaseOptions, i1.sessionTimeout = i2.sessionTimeout →
      opts.any DbOption.isScope = true →
      opts.foldl applyOption i1 = opts.foldl applyOption i2 := by
  induction opts with
  | nil => intro i1 i2 _ hc; simp at hc
  | cons x rest ih =>
    intro i1 i2 h hc
    rw [List.foldl_cons, List.foldl_cons]
    cases x with
    | scopeOption s =>
      have heq : applyOption i1 (DbOption.scopeOption s)
          = applyOption i2 (DbOption.scopeOption s) := by
        obtain ⟨sc1, t1⟩ := i1
        obtain ⟨sc2, t2⟩ := i2
        simp only [DatabaseOptions.sessionTimeout] at h
        simp [applyOption, h]
      rw [heq]
    | sessionTimeoutOption t =>
      have hrest : rest.any DbOption.isScope = true := by
        simpa [DbOption.isScope] using hc
      exact ih _ _ rfl hrest

/-- C6: `applyOptions` defaults the session timeout to exactly one minute
whenever the options list contains no timeout option; each option writes only
its own field; options apply in list order, so the last option for a field
wins; and options for distinct fields commute. -/
theorem applyOptions_defaults_and_field_independence
    (envScope : String) (opts : List DbOption) (o : DatabaseOptions)
    (s : String) (d : Int)
    (hnt : ∀ x ∈ opts, x.isTimeout = false) :
    (applyOptions envScope opts).sessionTimeout = minuteNs
    ∧ (applyOption o (DbOption.scopeOption s)).sessionTimeout = o.sessionTimeout
    ∧ (applyOption o (DbOption.scopeOption s)).scope = s
    ∧ (applyOption o (DbOption.sessionTimeoutOption d)).scope = o.scope
    ∧ (applyOption o (DbOption.sessionTimeoutOption d)).sessionTimeout = d
    ∧ (applyOptions envScope (opts ++ [DbOption.sessionTimeoutOption d])).sessionTimeout = d
    ∧ (applyOptions envScope (opts ++ [DbOption.scopeOption s])).scope = s
    ∧ applyOption (applyOption o (DbOption.scopeOption s)) (DbOption.sessionTimeoutOption d)
        = applyOption (applyOption o (DbOption.sessionTimeoutOption d))
            (DbOption.scopeOption s) := by
  refine ⟨?_, rfl, rfl, rfl, rfl, ?_, ?_, rfl⟩
  · unfold applyOptions
    rw [foldl_applyOption_timeout_const opts _ hnt]
    simp [minuteNs]
  · unfold applyOptions
    rw [List.foldl_append]
    rfl
  · unfold applyOptions
    rw [List.foldl_append]
    rfl

/-- Witness for the options theorem at a concrete environment, option list
and inputs. -/
theorem applyOptions_defaults_and_field_independence_witness :
    (applyOptions "env" [DbOption.scopeOption "a"]).sessionTimeout = minuteNs
    ∧ (applyOption { scope := "x", sessionTimeout := 7 }
        (DbOption.scopeOption "b")).sessionTimeout
      = ({ scope := "x", sessionTimeout := 7 } : DatabaseOptions).sessionTimeout
    ∧ (applyOption { scope := "x", sessionTimeout := 7 } (DbOption.scopeOption "b")).scope = "b"
    ∧ (applyOption { scope := "x", sessionTimeout := 7 }
        (DbOption.sessionTimeoutOption 9)).scope
      = ({ scope := "x", sessionTimeout := 7 } : DatabaseOptions).scope
    ∧ (applyOption { scope := "x", sessionTimeout := 7 }
        (DbOption.sessionTimeoutOption 9)).sessionTimeout = 9
    ∧ (applyOptions "env"
        ([DbOption.scopeOption "a"] ++ [DbOption.sessionTimeoutOption 9])).sessionTimeout = 9
    ∧ (applyOptions "env"
        ([DbOption.scopeOption "a"] ++ [DbOption.scopeOption "b"])).scope = "b"
    ∧ applyOption (applyOption { scope := "x", sessionTimeout := 7 }
          (DbOption.scopeOption "b")) (DbOption.sessionTimeoutOption 9)
        = applyOption (applyOption { scope := "x", sessionTimeout := 7 }
            (DbOption.sessionTimeoutOption 9)) (DbOption.scopeOption "b") :=
  applyOptions_defaults_and_field_independence "env" [DbOption.scopeOption "a"]
    { scope := "x", sessionTimeout := 7 } "b" 9
    (by intro x hx; rw [List.mem_singleton.mp hx]; rfl)

/-- C7 counterexample: with an empty options list, `applyOptions` evaluated
under two different values of the `ATOMIX_SCOPE` environment variable yields
different configurations, so the result is not independent of the process
environment. -/
theorem applyOptions_reads_environment :
    applyOptions "scopeA" [] ≠ applyOptions "scopeB" [] := by decide

/-- C7 (amended): `applyOptions` is a pure function of the `ATOMIX_SCOPE`
environment value and the options list; its session timeout never depends on
the environment, and its whole result is environment-independent whenever the
options list supplies a scope option (the ambient default only fills the
scope when no `WithScope` option is given). -/
theorem applyOptions_env_influence (env1 env2 : String) (opts : List DbOption) :
    (applyOptions env1 opts).sessionTimeout = (applyOptions env2 opts).sessionTimeout
    ∧ (opts.any DbOption.isScope = true →
        applyOptions env1 opts = applyOptions env2 opts) := by
  constructor
  · exact foldl_applyOption_timeout_congr opts _ _ rfl
  · intro hs
    exact foldl_applyOption_scope_overrides opts _ _ rfl hs

/-- Witness for the amended environment-influence theorem at two concrete
environments and a scope-carrying option list. -/
theorem applyOptions_env_influence_witness :
    (applyOptions "scopeA" [DbOption.scopeOption "s"]).sessionTimeout
      = (applyOptions "scopeB" [DbOption.scopeOption "s"]).sessionTimeout
    ∧ applyOptions "scopeA" [DbOption.scopeOption "s"]
      = applyOptions "scopeB" [DbOption.scopeOption "s"] :=
  ⟨(applyOptions_env_influence "scopeA" "scopeB" [DbOption.scopeOption "s"]).1,
   (applyOptions_env_influence "scopeA" "scopeB" [DbOption.scopeOption "s"]).2 (by decide)⟩

/-- Witness for the relay theorem at a concrete one-event stream. -/
theorem watch_relay_ordered_delivery_single_close_witness :
    sentEvents (watchRelay [eventRespWith EventResponseType.APPENDED])
      = [eventRespWith EventResponseType.APPENDED].map toEvent
    ∧ closeCount (watchRelay [eventRespWith EventResponseType.APPENDED]) = 1
    ∧ watchRelay [eventRespWith EventResponseType.APPENDED]
        = [eventRespWith EventResponseType.APPENDED].map
            (fun r => ChanAction.send (toEvent r)) ++ [ChanAction.closeCh] :=
  watch_relay_ordered_delivery_single_close [eventRespWith EventResponseType.APPENDED]

/-- Witness for the forwarding theorem at a concrete stream, message and
unrecognized type value. -/
theorem watch_forwards_every_message_witness :
    (sentEvents (watchRelay [eventRespWith EventResponseType.NONE])).length
      = [eventRespWith EventResponseType.NONE].length
    ∧ sentEvents (watchRelay [eventRespWith EventResponseType.NONE])
      = [eventRespWith EventResponseType.NONE].map toEvent
    ∧ (toEvent (eventRespWith EventResponseType.REMOVED)).type
      = eventTypeOf (eventRespWith EventResponseType.REMOVED).type
    ∧ eventTypeOf EventResponseType.NONE = EventType.EventNone
    ∧ eventTypeOf EventResponseType.APPENDED = EventType.EventAppended
    ∧ eventTypeOf EventResponseType.REMOVED = EventType.EventRemoved
    ∧ eventTypeOf (EventResponseType.UNRECOGNIZED 99) = EventType.EventNone
    ∧ (toEvent (eventRespWith EventResponseType.REMOVED)).entry.index
      = toUint64 (eventRespWith EventResponseType.REMOVED).index
    ∧ (toEvent (eventRespWith EventResponseType.REMOVED)).entry.value
      = (eventRespWith EventResponseType.REMOVED).value
    ∧ (toEvent (eventRespWith EventResponseType.REMOVED)).entry.version
      = toUint64 (eventRespWith EventResponseType.REMOVED).version
    ∧ (toEvent (eventRespWith EventResponseType.REMOVED)).entry.timestamp
      = (eventRespWith EventResponseType.REMOVED).timestamp :=
  watch_forwards_every_message [eventRespWith EventResponseType.NONE]
    (eventRespWith EventResponseType.REMOVED) 99

/-- Witness for the close/delete handler theorem at a concrete header. -/
theorem delete_handler_differs_only_in_delete_flag_witness :
    (sessionHandlerDelete { raw := 1 }).1 = (sessionHandlerClose { raw := 1 }).1
    ∧ (sessionHandlerDelete { raw := 1 }).2.1 = (sessionHandlerClose { raw := 1 }).2.1
    ∧ (sessionHandlerDelete { raw := 1 }).2.2.header
      = (sessionHandlerClose { raw := 1 }).2.2.header
    ∧ (sessionHandlerClose { raw := 1 }).2.2.delete = false
    ∧ (sessionHandlerDelete { raw := 1 }).2.2.delete = true
    ∧ (sessionHandlerDelete { raw := 1 }).2.2
      = { (sessionHandlerClose { raw := 1 }).2.2 with delete := true } :=
  delete_handler_differs_only_in_delete_flag { raw := 1 }
